import Mathlib

/-!
Shallow embedding of the Shhed TypeScript SDK (src/Shhed.ts, src/types.ts).

The SDK is a thin HTTP client: a validated credential configuration, a
fetch-secret operation (`get`) and a health check (`test`).  The embedding
models the JSON values a response body can parse to, the JavaScript
truthiness and property-access semantics the code relies on, the outcome of
a `fetch` call (completed response / rejected promise), and the observable
result of each operation (returned value, plain thrown error, or the typed
`ShhedSDKError`).  Requests are modelled by the URL, method and header list
the code passes to `fetch`.
-/

/-- Parsed JSON values, as produced by `response.json()`.  Numbers are
modelled as integers, which covers every value this development needs. -/
inductive Json where
  | null
  | bool (b : Bool)
  | num (n : Int)
  | str (s : String)
  | arr (elems : List Json)
  | obj (fields : List (String × Json))

/-- JavaScript truthiness of a JSON value: `null`, `false`, `0` and `""`
are falsy; every other value (including `[]` and `\x7b\x7d`) is truthy. -/
def jsTruthy : Json → Bool
  | .null => false
  | .bool b => b
  | .num n => n != 0
  | .str s => s != ""
  | .arr _ => true
  | .obj _ => true

/-- Field lookup on a parsed JSON object.  `JSON.parse` keeps the last of
duplicate keys, so the fold overwrites earlier bindings. -/
def jsLookup (fields : List (String × Json)) (key : String) : Option Json :=
  fields.foldl (fun acc p => if p.1 = key then some p.2 else acc) none

/-- Property access `v[key]` on a JavaScript value obtained from JSON:
reading a property of `null` throws a `TypeError`; on an object it yields
the field (or `undefined`, modelled as `none`); on any other value it
yields `undefined`. -/
def jsGetField : Json → String → Except Unit (Option Json)
  | .null, _ => .error ()
  | .obj fs, key => .ok (jsLookup fs key)
  | _, _ => .ok none

/-- The field a JSON value exposes under `key` when property access does
not throw: `some` on objects that carry the key, `none` otherwise. -/
def fieldOrUndefined : Json → String → Option Json
  | .obj fs, key => jsLookup fs key
  | _, _ => none

mutual
/-- JavaScript `String(v)` coercion of a JSON value, as applied by the
`Error` constructor to a non-string message. -/
def jsStringOfJson : Json → String
  | .null => "null"
  | .bool b => cond b "true" "false"
  | .num n => toString n
  | .str s => s
  | .obj _ => "[object Object]"
  | .arr xs => jsStringOfArr xs

/-- `Array.prototype.toString`: elements joined with commas. -/
def jsStringOfArr : List Json → String
  | [] => ""
  | [j] => jsStringOfItem j
  | j :: js => jsStringOfItem j ++ "," ++ jsStringOfArr js

/-- An array element inside `join`: `null` becomes the empty string. -/
def jsStringOfItem : Json → String
  | .null => ""
  | .bool b => cond b "true" "false"
  | .num n => toString n
  | .str s => s
  | .obj _ => "[object Object]"
  | .arr xs => jsStringOfArr xs
end

/-- First character of a URL scheme: an ASCII letter. -/
def isSchemeStartChar (c : Char) : Bool :=
  (65 ≤ c.toNat && c.toNat ≤ 90) || (97 ≤ c.toNat && c.toNat ≤ 122)

/-- Subsequent characters of a URL scheme. -/
def isSchemeChar (c : Char) : Bool :=
  isSchemeStartChar c || (48 ≤ c.toNat && c.toNat ≤ 57) || c = '+' || c = '-' || c = '.'

/-- Walk scheme characters until the terminating colon. -/
def schemeThenColon : List Char → Bool
  | [] => false
  | c :: rest => if c = ':' then true else if isSchemeChar c then schemeThenColon rest else false

/-- Modelled from the platform: the WHATWG `new URL(input)` parser is an
external collaborator, not part of this repository.  Simplified to the
absolute-URL scheme requirement — the input must open with an ASCII letter
followed by scheme characters and a colon.  This is accurate on every
input this development evaluates it at (well-formed `http`/`https` origins
parse; the empty string and colon-free strings fail to parse). -/
def jsURLparses (s : String) : Bool :=
  match s.data with
  | [] => false
  | c :: rest => isSchemeStartChar c && schemeThenColon rest

/-- Configuration accepted by the `Shhed` constructor (`ShhedConfig` in
src/types.ts).  Optional fields are `Option`; `none` models an omitted
field. -/
structure ShhedConfig where
  access_key : String
  secret_key : Option String := none
  projectId : String
  endpoint : Option String := none
deriving DecidableEq, Repr

/-- `String.prototype.startsWith`, computed on the character list. -/
def strStartsWith (s p : String) : Bool :=
  p.data.isPrefixOf s.data

/-- `Shhed.validateConfig`: returns the message of the error thrown, or
`none` when validation passes.  JavaScript `!s` on a string is true
exactly on the empty string, and `if (config.endpoint)` enters the URL
check only for a supplied, non-empty endpoint. -/
def validateConfig (config : ShhedConfig) : Option String :=
  if config.access_key = "" then
    some "Shhed access_key is required"
  else if config.projectId = "" then
    some "Shhed projectId is required"
  else if !strStartsWith config.access_key "ak_" then
    some "Shhed access_key must start with \"ak_\""
  else
    match config.endpoint with
    | some e =>
        if e ≠ "" then
          if jsURLparses e then none else some "Shhed endpoint must be a valid URL"
        else none
    | none => none

/-- A constructed SDK instance: the stored configuration and the resolved
endpoint (`config.endpoint || defaultEndpoint`). -/
structure Shhed where
  config : ShhedConfig
  endpoint : String
deriving DecidableEq, Repr

/-- The fixed production origin used when no endpoint is supplied. -/
def defaultEndpoint : String := "https://api.shhed.io"

/-- JavaScript `a || b` on an optional string: `b` when `a` is omitted or
falsy (the empty string), `a`'s value otherwise. -/
def jsOrElse (o : Option String) (d : String) : String :=
  match o with
  | some s => if s = "" then d else s
  | none => d

/-- The `Shhed` constructor: validate, then store the configuration and
resolve the endpoint as `config.endpoint || defaultEndpoint`. -/
def Shhed.create (config : ShhedConfig) : Except String Shhed :=
  match validateConfig config with
  | some msg => .error msg
  | none => .ok { config := config, endpoint := jsOrElse config.endpoint defaultEndpoint }

/-- `endpoint.replace(/\/$/, "")`: strip one trailing slash if present. -/
def stripTrailingSlash (s : String) : String :=
  match s.data.getLast? with
  | some c => if c = '/' then String.mk s.data.dropLast else s
  | none => s

/-- A hexadecimal digit in upper case, as `encodeURIComponent` emits. -/
def hexDigitChar (n : Nat) : Char :=
  if n < 10 then Char.ofNat (48 + n) else Char.ofNat (55 + n)

/-- A percent-encoded byte: `%` followed by two upper-case hex digits. -/
def percentEncodeByte (b : Nat) : String :=
  String.mk ['%', hexDigitChar (b / 16), hexDigitChar (b % 16)]

/-- UTF-8 byte sequence of a code point, used by `encodeURIComponent` for
every character it escapes. -/
def utf8ByteList (n : Nat) : List Nat :=
  if n < 128 then [n]
  else if n < 2048 then [192 + n / 64, 128 + n % 64]
  else if n < 65536 then [224 + n / 4096, 128 + (n / 64) % 64, 128 + n % 64]
  else [240 + n / 262144, 128 + (n / 4096) % 64, 128 + (n / 64) % 64, 128 + n % 64]

/-- The characters `encodeURIComponent` leaves unescaped:
`A-Z a-z 0-9 - _ . ! ~ *` and apostrophe and parentheses. -/
def isUnescapedURIChar (c : Char) : Bool :=
  (65 ≤ c.toNat && c.toNat ≤ 90) || (97 ≤ c.toNat && c.toNat ≤ 122) ||
  (48 ≤ c.toNat && c.toNat ≤ 57) ||
  c = '-' || c = '_' || c = '.' || c = '!' || c = '~' || c = '*' ||
  c.toNat = 39 || c = '(' || c = ')'

/-- JavaScript `encodeURIComponent`: keep unescaped characters, percent-
encode the UTF-8 bytes of every other character. -/
def encodeURIComponent (s : String) : String :=
  s.data.foldl
    (fun acc c =>
      if isUnescapedURIChar c then acc.push c
      else acc ++ String.join ((utf8ByteList c.toNat).map percentEncodeByte))
    ""

/-- The observable HTTP request the SDK hands to `fetch`. -/
structure Request where
  url : String
  method : String
  headers : List (String × String)
deriving DecidableEq, Repr

/-- A completed HTTP response as the SDK observes it: status, status text,
and the result of `response.json()` — `.error msg` models a body that is
not valid JSON, whose parse rejects with an `Error` carrying `msg`. -/
structure Response where
  status : Nat
  statusText : String
  body : Except String Json

/-- `response.ok` of the WHATWG fetch `Response`: status in 200..299. -/
def responseOk (status : Nat) : Bool :=
  200 ≤ status && status ≤ 299

/-- Outcome of awaiting `fetch`: a completed response, a rejection with an
`Error` carrying a message (transport failure), or a rejection with a
non-`Error` value. -/
inductive FetchOutcome where
  | completed (r : Response)
  | netError (msg : String)
  | netThrowNonError

/-- Observable result of `Shhed.get`:
`success v` — the method returns `keyData.key_value` (a JSON value, or
`none` for `undefined`); `usageError` — a plain `Error` thrown before any
network activity; `sdkError msg statusCode response` — a thrown
`ShhedSDKError` with its three fields; `unhandled` — an error escaping the
method unwrapped (no path of `Shhed.get` produces it, since the catch-all
wraps every `Error`; it exists so that claims about unwrapped propagation
are statable). -/
inductive GetResult where
  | success (value : Option Json)
  | usageError (msg : String)
  | sdkError (msg : String) (statusCode : Nat) (response : Option Json)
  | unhandled (msg : String)

/-- Whether a `GetResult` is the typed `ShhedSDKError` failure. -/
def GetResult.isSdkError : GetResult → Bool
  | .sdkError _ _ _ => true
  | _ => false

/-- The authorization credential of `Shhed.get`: `access_key:secret_key`
when `this.config.secret_key` is truthy, else `access_key` alone.  A
stored empty-string secret key is falsy, hence the inner test. -/
def Shhed.authToken (s : Shhed) : String :=
  match s.config.secret_key with
  | some sk => if sk = "" then s.config.access_key else s.config.access_key ++ ":" ++ sk
  | none => s.config.access_key

/-- The request `Shhed.get` passes to `fetch`, or `none` when the empty
key name aborts the call before any request is built. -/
def Shhed.getRequest (s : Shhed) (keyName : String) : Option Request :=
  if keyName = "" then none
  else
    some { url := stripTrailingSlash s.endpoint ++ "/v1/keys/" ++ encodeURIComponent keyName,
           method := "GET",
           headers := [("Authorization", "Bearer " ++ s.authToken),
                       ("X-Project-ID", s.config.projectId),
                       ("Content-Type", "application/json")] }

/-- Message of the `ShhedSDKError` built in the catch-all of `Shhed.get`
for a caught `Error`. -/
def fetchKeyFailMsg (keyName msg : String) : String :=
  "Failed to fetch key \"" ++ keyName ++ "\": " ++ msg

/-- Message of the `TypeError` thrown by reading a property of `null`.
The exact wording is engine-specific; only its occurrence matters here. -/
def nullPropertyReadMsg (field : String) : String :=
  "Cannot read properties of null (reading " ++ field ++ ")"

/-- The synthesized HTTP error message of `Shhed.get`. -/
def httpStatusMsg (status : Nat) (statusText : String) : String :=
  "HTTP " ++ toString status ++ ": " ++ statusText

/-- `Shhed.get`, as a function of the stored instance, the requested key
name, and the outcome of the single `fetch` call.  Traces src/Shhed.ts:
empty name throws a plain `Error`; the response body is parsed before the
status check; a failing status raises `ShhedSDKError(detail || synthesized,
status, body)`; a passing status returns `keyData.key_value`.  Every
`Error` reaching the catch — transport failure, JSON parse failure, or a
`TypeError` from reading a field of a `null` body — is wrapped into
`ShhedSDKError(failMsg, 0)`; a `ShhedSDKError` is rethrown unchanged. -/
def Shhed.get (s : Shhed) (keyName : String) (outcome : FetchOutcome) : GetResult :=
  if keyName = "" then .usageError "Key name is required"
  else
    match outcome with
    | .netError m => .sdkError (fetchKeyFailMsg keyName m) 0 none
    | .netThrowNonError => .sdkError (fetchKeyFailMsg keyName "Unknown error") 0 none
    | .completed r =>
        match r.body with
        | .error parseMsg => .sdkError (fetchKeyFailMsg keyName parseMsg) 0 none
        | .ok responseData =>
            if !responseOk r.status then
              match jsGetField responseData "detail" with
              | .error _ =>
                  .sdkError (fetchKeyFailMsg keyName (nullPropertyReadMsg "detail")) 0 none
              | .ok d =>
                  .sdkError
                    (match d with
                     | some v =>
                         if jsTruthy v then jsStringOfJson v
                         else httpStatusMsg r.status r.statusText
                     | none => httpStatusMsg r.status r.statusText)
                    r.status (some responseData)
            else
              match jsGetField responseData "key_value" with
              | .error _ =>
                  .sdkError (fetchKeyFailMsg keyName (nullPropertyReadMsg "key_value")) 0 none
              | .ok v => .success v

/-- Observable result of `Shhed.test`: the method returns `true`
(`success`) or throws a `ShhedSDKError`. -/
inductive TestResult where
  | success
  | sdkError (msg : String) (statusCode : Nat)
deriving DecidableEq, Repr

/-- The request `Shhed.test` passes to `fetch`: the health path with only
the JSON content-type header. -/
def Shhed.testRequest (s : Shhed) : Request :=
  { url := stripTrailingSlash s.endpoint ++ "/health",
    method := "GET",
    headers := [("Content-Type", "application/json")] }

/-- `Shhed.test` as a function of the fetch outcome.  A failing status
raises `ShhedSDKError` with the synthesized health message and the status;
the body is never read.  A rejection is wrapped with status code 0, using
`error.message` when the rejection value is an `Error`. -/
def Shhed.test (s : Shhed) (outcome : FetchOutcome) : TestResult :=
  match outcome with
  | .completed r =>
      if !responseOk r.status then
        .sdkError ("Health check failed: HTTP " ++ toString r.status) r.status
      else .success
  | .netError m => .sdkError ("Connection test failed: " ++ m) 0
  | .netThrowNonError => .sdkError "Connection test failed: Unknown error" 0

/-! ### Concrete fixtures used by the closed theorems below -/

/-- The valid full-access configuration of the repository's test suite. -/
def demoConfig : ShhedConfig :=
  { access_key := "ak_test123", secret_key := some "secret123", projectId := "test-project" }

/-- The client `Shhed.create` builds from `demoConfig`. -/
def demoClient : Shhed :=
  { config := demoConfig, endpoint := defaultEndpoint }

/-- A configuration whose `secret_key` is supplied as the empty string. -/
def emptySecretConfig : ShhedConfig :=
  { access_key := "ak_test123", secret_key := some "", projectId := "test-project" }

/-- The client built from `emptySecretConfig`. -/
def emptySecretClient : Shhed :=
  { config := emptySecretConfig, endpoint := defaultEndpoint }

/-- A healthy 2xx response. -/
def r200 : Response :=
  { status := 200, statusText := "OK", body := .ok (.obj [("status", .str "healthy")]) }

/-- A failing 5xx response. -/
def r500 : Response :=
  { status := 500, statusText := "Internal Server Error", body := .ok .null }

/-- A 404 whose JSON error body carries a non-empty `detail`. -/
def r404detail : Response :=
  { status := 404, statusText := "Not Found",
    body := .ok (.obj [("detail", .str "API key not found")]) }

/-- The error body whose `detail` field is present but empty. -/
def emptyDetailBody : Json := .obj [("detail", .str "")]

/-- A 404 whose JSON error body carries an empty-string `detail`. -/
def r404emptyDetail : Response :=
  { status := 404, statusText := "Not Found", body := .ok emptyDetailBody }

/-- A 404 whose body is the JSON literal `null`. -/
def r404nullBody : Response :=
  { status := 404, statusText := "Not Found", body := .ok .null }

/-- A 200 whose body is not valid JSON: `response.json()` rejects. -/
def malformedBodyResp : Response :=
  { status := 200, statusText := "OK", body := .error "Unexpected token" }

/-! ### Specification-side definitions

These are written from the claims' words, to be compared with the
definitions above, which are traced from the source. -/

/-- The construction-failure condition and message of claim C4, as
amended: the four checks in order, first failing check wins; the endpoint
check applies to a supplied, non-empty endpoint. -/
def constructionErrorSpec (c : ShhedConfig) : Option String :=
  if c.access_key = "" then some "Shhed access_key is required"
  else if c.projectId = "" then some "Shhed projectId is required"
  else if !strStartsWith c.access_key "ak_" then
    some "Shhed access_key must start with \"ak_\""
  else if (match c.endpoint with
           | some e => e != "" && !jsURLparses e
           | none => false) then
    some "Shhed endpoint must be a valid URL"
  else none

/-- The four construction error messages, in check order. -/
def constructionMessages : List String :=
  ["Shhed access_key is required",
   "Shhed projectId is required",
   "Shhed access_key must start with \"ak_\"",
   "Shhed endpoint must be a valid URL"]

/-- **C6**: for every client, fetch-secret with an empty name fails with
the plain error "Key name is required" — not the typed client failure —
identically for every fetch outcome, and no request is built. -/
theorem get_emptyName_usageError (s : Shhed) (outcome : FetchOutcome) :
    Shhed.get s "" outcome = .usageError "Key name is required" ∧
    (Shhed.get s "" outcome).isSdkError = false ∧
    Shhed.getRequest s "" = none :=
  ⟨rfl, rfl, rfl⟩

/-- **C7**: a transport-level exception during fetch-secret yields the
typed failure with statusCode 0 whose message embeds the requested key
name and the transport error text. -/
theorem get_transportError_mapping (s : Shhed) (keyName m : String) (h : keyName ≠ "") :
    Shhed.get s keyName (.netError m) =
      .sdkError ("Failed to fetch key \"" ++ keyName ++ "\": " ++ m) 0 none := by
  simp [Shhed.get, h, fetchKeyFailMsg]

/-- Witness for C7 at the test suite's network-error scenario. -/
theorem get_transportError_mapping_witness :
    Shhed.get demoClient "TEST_KEY" (.netError "Network error") =
      .sdkError "Failed to fetch key \"TEST_KEY\": Network error" 0 none :=
  get_transportError_mapping demoClient "TEST_KEY" "Network error" (by decide)

/-- **C9**: the health-check request carries exactly the JSON
content-type header; in particular no Authorization header is sent,
whatever credential the client stores. -/
theorem testRequest_no_authorization (s : Shhed) :
    (Shhed.testRequest s).headers = [("Content-Type", "application/json")] ∧
    (Shhed.testRequest s).headers.filter (fun p => p.1 == "Authorization") = [] :=
  ⟨rfl, rfl⟩

/-- **C10**: a configuration supplying `secret_key` as the empty string
authorizes as the access key alone — the credential branch tests the
truthiness of `secret_key`, so an empty secret behaves exactly like an
omitted one. -/
theorem authToken_emptySecret_truthiness (c : ShhedConfig) (ep : String)
    (h : c.secret_key = some "") :
    Shhed.authToken { config := c, endpoint := ep } = c.access_key ∧
    (∀ keyName, Shhed.getRequest { config := c, endpoint := ep } keyName =
       Shhed.getRequest { config := { c with secret_key := none }, endpoint := ep } keyName) := by
  refine ⟨by simp [Shhed.authToken, h], fun keyName => ?_⟩
  simp [Shhed.getRequest, Shhed.authToken, h]

/-- Witness for C10 at the concrete empty-secret configuration. -/
theorem authToken_emptySecret_truthiness_witness :
    Shhed.authToken emptySecretClient = "ak_test123" ∧
    Shhed.getRequest emptySecretClient "K" =
      Shhed.getRequest { config := { emptySecretConfig with secret_key := none },
                         endpoint := defaultEndpoint } "K" := by
  have h := authToken_emptySecret_truthiness emptySecretConfig defaultEndpoint rfl
  exact ⟨h.1, h.2 "K"⟩

/-- **C2** (amended): every fetch-secret request carries exactly the
Authorization, X-Project-ID and Content-Type headers; the Authorization
value is "Bearer accessKey:secretKey" when a non-empty secretKey was
supplied at construction and "Bearer accessKey" otherwise (a supplied
empty secretKey is falsy and behaves as absent). -/
theorem getRequest_headers_exact (s : Shhed) (keyName : String) (h : keyName ≠ "") :
    (Shhed.getRequest s keyName).map Request.headers =
      some [("Authorization", "Bearer " ++
              (match s.config.secret_key with
               | some sk => if sk = "" then s.config.access_key
                            else s.config.access_key ++ ":" ++ sk
               | none => s.config.access_key)),
            ("X-Project-ID", s.config.projectId),
            ("Content-Type", "application/json")] := by
  simp [Shhed.getRequest, h, Shhed.authToken]

/-- Witness for C2 at the full-access demo client. -/
theorem getRequest_headers_exact_witness :
    (Shhed.getRequest demoClient "TEST_KEY").map Request.headers =
      some [("Authorization", "Bearer ak_test123:secret123"),
            ("X-Project-ID", "test-project"),
            ("Content-Type", "application/json")] :=
  getRequest_headers_exact demoClient "TEST_KEY" (by decide)

/-- **C2** counterexample: with `secret_key` supplied as the empty string
the request authorizes as "Bearer ak_test123", not the claimed
"Bearer ak_test123:". -/
theorem getRequest_headers_emptySecret_cex :
    emptySecretClient.config.secret_key = some "" ∧
    (Shhed.getRequest emptySecretClient "K").map Request.headers =
      some [("Authorization", "Bearer ak_test123"),
            ("X-Project-ID", "test-project"),
            ("Content-Type", "application/json")] ∧
    ("Bearer ak_test123" : String) ≠ "Bearer ak_test123:" :=
  ⟨rfl, rfl, by decide⟩

/-- **C5**: the fetch-secret URL is the effective base URL (the resolved
endpoint: the supplied non-empty endpoint, or the default) with one
trailing slash stripped, then "/v1/keys/", then the percent-encoded name;
"KEY WITH SPACES" encodes to the path segment KEY%20WITH%20SPACES. -/
theorem getRequest_url_encoding (config : ShhedConfig) (s : Shhed) (keyName : String)
    (hc : Shhed.create config = .ok s) (hk : keyName ≠ "") :
    (Shhed.getRequest s keyName).map Request.url =
      some (stripTrailingSlash s.endpoint ++ "/v1/keys/" ++ encodeURIComponent keyName) ∧
    (config.endpoint = none → s.endpoint = defaultEndpoint) ∧
    (∀ e, config.endpoint = some e → e ≠ "" → s.endpoint = e) ∧
    encodeURIComponent "KEY WITH SPACES" = "KEY%20WITH%20SPACES" := by
  have hs : s.endpoint = jsOrElse config.endpoint defaultEndpoint := by
    unfold Shhed.create at hc
    cases hval : validateConfig config with
    | some m => rw [hval] at hc; cases hc
    | none =>
        rw [hval] at hc
        simp only [Except.ok.injEq] at hc
        rw [← hc]
  refine ⟨by simp [Shhed.getRequest, hk], ?_, ?_, by decide⟩
  · intro h; rw [hs, h]; rfl
  · intro e he hne; rw [hs, he]; simp [jsOrElse, hne]

/-- Witness for C5: the demo client requests the space-containing name at
the percent-encoded default-endpoint URL. -/
theorem getRequest_url_encoding_witness :
    Shhed.create demoConfig = .ok demoClient ∧
    (Shhed.getRequest demoClient "KEY WITH SPACES").map Request.url =
      some "https://api.shhed.io/v1/keys/KEY%20WITH%20SPACES" :=
  ⟨rfl, (getRequest_url_encoding demoConfig demoClient "KEY WITH SPACES" rfl (by decide)).1⟩

/-- **C8**: health-check returns true on any 2xx response without reading
the body; on a non-2xx status it fails typed with that status and the
message "Health check failed: HTTP status", again without reading the
body; a transport exception fails typed with statusCode 0 and the
transport error text embedded. -/
theorem healthCheck_mapping (s : Shhed) (r : Response) (m : String) :
    (responseOk r.status = true → Shhed.test s (.completed r) = .success) ∧
    (responseOk r.status = false →
       Shhed.test s (.completed r) =
         .sdkError ("Health check failed: HTTP " ++ toString r.status) r.status) ∧
    (∀ b, Shhed.test s (.completed { r with body := b }) = Shhed.test s (.completed r)) ∧
    Shhed.test s (.netError m) = .sdkError ("Connection test failed: " ++ m) 0 := by
  refine ⟨fun h => by simp [Shhed.test, h], fun h => by simp [Shhed.test, h],
          fun b => rfl, rfl⟩

/-- Witness for C8 at the test suite's health-check scenarios. -/
theorem healthCheck_mapping_witness :
    responseOk r200.status = true ∧ responseOk r500.status = false ∧
    Shhed.test demoClient (.completed r200) = .success ∧
    Shhed.test demoClient (.completed r500) = .sdkError "Health check failed: HTTP 500" 500 ∧
    Shhed.test demoClient (.netError "Network request failed") =
      .sdkError "Connection test failed: Network request failed" 0 := by
  refine ⟨by decide, by decide, ?_, ?_, ?_⟩
  · exact (healthCheck_mapping demoClient r200 "x").1 (by decide)
  · exact (healthCheck_mapping demoClient r500 "x").2.1 (by decide)
  · exact (healthCheck_mapping demoClient r200 "Network request failed").2.2.2

/-- **C1** (amended): a non-2xx completed response whose body parses as a
JSON value other than null yields the typed failure whose message is the
(string-coerced) `detail` field when present and truthy, and otherwise
"HTTP status: statusText"; statusCode is the HTTP status and serverDetail
is the full parsed body.  (A present-but-falsy `detail` — e.g. the empty
string — falls back to the synthesized message; a JSON-null body instead
hits the generic catch with statusCode 0.) -/
theorem get_errorResponse_mapping (s : Shhed) (keyName : String) (r : Response) (j : Json)
    (hname : keyName ≠ "") (hbody : r.body = .ok j) (hnull : j ≠ .null)
    (hstatus : responseOk r.status = false) :
    Shhed.get s keyName (.completed r) =
      .sdkError
        (match fieldOrUndefined j "detail" with
         | some v => if jsTruthy v then jsStringOfJson v else httpStatusMsg r.status r.statusText
         | none => httpStatusMsg r.status r.statusText)
        r.status (some j) := by
  have hfield : jsGetField j "detail" = .ok (fieldOrUndefined j "detail") := by
    cases j with
    | null => exact absurd rfl hnull
    | bool b => rfl
    | num n => rfl
    | str t => rfl
    | arr xs => rfl
    | obj fs => rfl
  simp [Shhed.get, hname, hbody, hstatus, hfield]

/-- Witness for C1 at the test suite's 404 scenario. -/
theorem get_errorResponse_mapping_witness :
    Shhed.get demoClient "MISSING_KEY" (.completed r404detail) =
      .sdkError "API key not found" 404 (some (.obj [("detail", .str "API key not found")])) :=
  get_errorResponse_mapping demoClient "MISSING_KEY" r404detail
    (.obj [("detail", .str "API key not found")]) (by decide) rfl
    (fun h => Json.noConfusion h) (by decide)

/-- **C1** counterexample: at status 404 a body whose `detail` field is
present but empty yields the synthesized message rather than the detail
field, and a JSON-null body yields statusCode 0 rather than 404. -/
theorem get_errorResponse_mapping_cex :
    fieldOrUndefined emptyDetailBody "detail" = some (.str "") ∧
    Shhed.get demoClient "K" (.completed r404emptyDetail) =
      .sdkError "HTTP 404: Not Found" 404 (some emptyDetailBody) ∧
    ("HTTP 404: Not Found" : String) ≠ "" ∧
    Shhed.get demoClient "K" (.completed r404nullBody) =
      .sdkError (fetchKeyFailMsg "K" (nullPropertyReadMsg "detail")) 0 none :=
  ⟨rfl, rfl, by decide, rfl⟩

/-- **C3** (amended): a completed response whose body is not valid JSON
does not escape as a generic parse error: the parse failure is caught by
the catch-all and wrapped into the typed client failure with statusCode 0
and the key name and parse error text in the message — the same shape a
transport failure produces. -/
theorem get_invalidJson_wrapped (s : Shhed) (keyName parseMsg : String) (r : Response)
    (hname : keyName ≠ "") (hbody : r.body = .error parseMsg) :
    Shhed.get s keyName (.completed r) =
      .sdkError (fetchKeyFailMsg keyName parseMsg) 0 none ∧
    (Shhed.get s keyName (.completed r)).isSdkError = true := by
  have h1 : Shhed.get s keyName (.completed r) =
      .sdkError (fetchKeyFailMsg keyName parseMsg) 0 none := by
    simp [Shhed.get, hname, hbody]
  exact ⟨h1, by rw [h1]; rfl⟩

/-- Witness for C3: an invalid body on a 404 is wrapped with statusCode 0
(the parse precedes the status check). -/
theorem get_invalidJson_wrapped_witness :
    Shhed.get demoClient "K2"
      (.completed { status := 404, statusText := "Not Found", body := .error "invalid json" }) =
      .sdkError (fetchKeyFailMsg "K2" "invalid json") 0 none :=
  (get_invalidJson_wrapped demoClient "K2" "invalid json"
    { status := 404, statusText := "Not Found", body := .error "invalid json" }
    (by decide) rfl).1

/-- **C3** counterexample: on a body that fails to parse, fetch-secret
produces the typed `ShhedSDKError` — not an unwrapped generic parse
error. -/
theorem get_invalidJson_unwrapped_cex :
    Shhed.get demoClient "TEST_KEY" (.completed malformedBodyResp) =
      .sdkError (fetchKeyFailMsg "TEST_KEY" "Unexpected token") 0 none ∧
    (Shhed.get demoClient "TEST_KEY" (.completed malformedBodyResp)).isSdkError = true ∧
    GetResult.isSdkError (.unhandled "Unexpected token") = false :=
  ⟨rfl, rfl, rfl⟩

/-- **C4** (amended): construction fails exactly on the four ordered
checks — empty accessKey, empty projectIdentifier, missing "ak_" prefix,
then a supplied *non-empty* endpoint that does not parse as a URL (an
empty-string endpoint is falsy and skips the URL check) — first failing
check wins, each with its own distinct stable message; any configuration
passing all checks constructs a client. -/
theorem create_validation_characterization (config : ShhedConfig) :
    Shhed.create config =
      (match constructionErrorSpec config with
       | some m => .error m
       | none => .ok { config := config,
                       endpoint := jsOrElse config.endpoint defaultEndpoint }) ∧
    constructionMessages.Pairwise (· ≠ ·) := by
  refine ⟨?_, by decide⟩
  rcases config with ⟨ak, sk, pid, ep⟩
  by_cases h1 : ak = "" <;> by_cases h2 : pid = "" <;>
    by_cases h3 : strStartsWith ak "ak_" <;>
    rcases ep with _ | e
  all_goals
    simp [Shhed.create, validateConfig, constructionErrorSpec, h1, h2, h3]
  all_goals
    by_cases h4 : e = "" <;> by_cases h5 : jsURLparses e <;>
      simp [h4, h5, jsOrElse]

/-- **C4** counterexample: the configuration supplying the empty string
as endpoint does not parse as a URL, yet construction succeeds (the
falsy endpoint skips the URL check and the default endpoint is used). -/
theorem create_emptyEndpoint_cex :
    jsURLparses "" = false ∧
    Shhed.create { access_key := "ak_test123", projectId := "test-project",
                   endpoint := some "" } =
      .ok { config := { access_key := "ak_test123", projectId := "test-project",
                        endpoint := some "" },
            endpoint := defaultEndpoint } :=
  ⟨rfl, rfl⟩
